/-
Verification of the stratigraphy classification engine of cryogrid-data-fetcher.

The definitions below are a shallow embedding of the functions in
  src/cryogrid_data_fetcher/stratigraphy/make_strat.py
  src/cryogrid_data_fetcher/utils/shp_helper.py
translated statement by statement from the Python source.  Dynamically typed
Python values are modelled by `PyVal`, numpy arrays by `Arr` (dtype, shape and
a boolean payload indexed by a flat index list), NaN cells of the float
accumulator by `Option.none`, and raised exceptions by `Except.error`.
-/
import Mathlib

/-- numpy dtypes that the stratigraphy code distinguishes. -/
inductive Dtype
  | bool
  | int64
  | float64
deriving DecidableEq, Repr

/-- Python values stored under the ad hoc string keys of a rule dict entry. -/
inductive PyVal
  | vint (n : Int)
  | vstr (s : String)
  | vother
deriving DecidableEq, Repr

/-- an n-dimensional array: dtype, shape, and the boolean payload used by the
mask arrays of make_strat.py, indexed by a flat list of indices. -/
structure Arr where
  dtype : Dtype
  shape : List Nat
  data : List Nat → Bool

/-- one value of the strat_dict (make_strat.py lines 159-190): the keys
data / description / color / value; a missing dict key is `none`. -/
structure RuleInfo where
  data : Arr
  description : Option PyVal
  color : Option PyVal
  value : Option PyVal

/-- the ordered rule dictionary (Python dicts preserve insertion order). -/
abbrev StratDict := List (String × RuleInfo)

def PyVal.isStr : PyVal → Bool
  | .vstr _ => true
  | _ => false

def PyVal.strVal : PyVal → String
  | .vstr s => s
  | _ => ""

/-- row-major enumeration of the pixels of a rows × cols grid. -/
def pixels (rows cols : Nat) : List (Nat × Nat) :=
  (List.range rows).flatMap (fun i => (List.range cols).map (fun j => (i, j)))

/-- errors raised by check_stratigraphy_masks (make_strat.py lines 282-297).
`overlapAssert` is the AssertionError of `assert n_multi_class != 0` (it fires
when the count is 0) and `unclassifiedAssert` that of
`assert n_unclassified != 0`, exactly as in the source. -/
inductive MaskErr
  | notThreeD
  | notBool
  | overlapAssert (n : Nat)
  | unclassifiedAssert (n : Nat)
deriving DecidableEq, Repr

/-- check_stratigraphy_masks (make_strat.py lines 261-297).  The stacked mask
is a 3D array [class, y, x]; the dims-name assert of line 283 is represented
by the fixed index order of the embedding.  Note that, as in the source,
`n_unclassified` counts the pixels covered by at least one class
(the variable unclassified is mask.any over the class dim, with no negation)
and both asserts
raise when the respective count is ZERO. -/
def check_stratigraphy_masks (mask : Arr) : Except MaskErr Unit :=
  match mask.shape with
  | [n, rows, cols] =>
    if mask.dtype ≠ Dtype.bool then Except.error MaskErr.notBool
    else
      let n_multi_class := (pixels rows cols).countP
        (fun p => !((List.range n).countP (fun k => mask.data [k, p.1, p.2]) == 1))
      let n_unclassified := (pixels rows cols).countP
        (fun p => (List.range n).any (fun k => mask.data [k, p.1, p.2]))
      if n_multi_class == 0 then Except.error (MaskErr.overlapAssert n_multi_class)
      else if n_unclassified == 0 then Except.error (MaskErr.unclassifiedAssert n_unclassified)
      else Except.ok ()
  | _ => Except.error MaskErr.notThreeD

/-- number of pixels of a stacked [class, y, x] mask covered by NO class:
what the docstring of check_stratigraphy_masks ("No unclassified pixels")
refers to. -/
def unclassifiedPixelCount (mask : Arr) : Nat :=
  match mask.shape with
  | [n, rows, cols] =>
    (pixels rows cols).countP
      (fun p => !((List.range n).any (fun k => mask.data [k, p.1, p.2])))
  | _ => 0

/-- errors raised by check_stratigraphy_classes (make_strat.py lines 244-256),
in source order; every AssertionError message names the offending key.
`keyErrorExcluded` is the KeyError of the excluded-entry lookup when that key
is absent. -/
inductive ClsErr
  | not2D (key : String)
  | notBoolData (key : String)
  | keyErrorExcluded
  | shapeMismatch (key : String)
  | missingDescription (key : String)
  | missingColor (key : String)
  | missingValue (key : String)
  | descriptionNotStr (key : String)
  | colorNotStr (key : String)
  | valueNotInt (key : String)
  | valueNotPositive (key : String)
deriving DecidableEq, Repr

/-- the rule key named in the assertion message of a ClsErr, if any. -/
def clsErrKey : ClsErr → Option String
  | .not2D k => some k
  | .notBoolData k => some k
  | .keyErrorExcluded => none
  | .shapeMismatch k => some k
  | .missingDescription k => some k
  | .missingColor k => some k
  | .missingValue k => some k
  | .descriptionNotStr k => some k
  | .colorNotStr k => some k
  | .valueNotInt k => some k
  | .valueNotPositive k => some k

/-- dict lookup `classes[k]` (first binding wins, as for a Python dict). -/
def lookupKey (classes : StratDict) (k : String) : Option RuleInfo :=
  (classes.find? (fun kv => kv.1 == k)).map (fun kv => kv.2)

/-- the body of the `for key, info in classes.items()` loop of
check_stratigraphy_classes, asserts in source order (lines 245-256). -/
def checkOneClass (classes : StratDict) (key : String) (info : RuleInfo) :
    Except ClsErr Unit :=
  if info.data.shape.length ≠ 2 then Except.error (ClsErr.not2D key)
  else if info.data.dtype ≠ Dtype.bool then Except.error (ClsErr.notBoolData key)
  else
    match lookupKey classes "excluded" with
    | none => Except.error ClsErr.keyErrorExcluded
    | some ex =>
      if info.data.shape ≠ ex.data.shape then Except.error (ClsErr.shapeMismatch key)
      else
        match info.description with
        | none => Except.error (ClsErr.missingDescription key)
        | some d =>
          match info.color with
          | none => Except.error (ClsErr.missingColor key)
          | some c =>
            match info.value with
            | none => Except.error (ClsErr.missingValue key)
            | some v =>
              if d.isStr then
                if c.isStr then
                  match v with
                  | PyVal.vint n =>
                    if n ≤ 0 then Except.error (ClsErr.valueNotPositive key)
                    else Except.ok ()
                  | _ => Except.error (ClsErr.valueNotInt key)
                else Except.error (ClsErr.colorNotStr key)
              else Except.error (ClsErr.descriptionNotStr key)

/-- iteration of checkOneClass over the items, stopping at the first raise. -/
def checkClassesList (classes : StratDict) : List (String × RuleInfo) → Except ClsErr Unit
  | [] => Except.ok ()
  | kv :: rest =>
    match checkOneClass classes kv.1 kv.2 with
    | Except.error e => Except.error e
    | Except.ok _ => checkClassesList classes rest

/-- check_stratigraphy_classes (make_strat.py lines 228-258). -/
def check_stratigraphy_classes (classes : StratDict) : Except ClsErr Unit :=
  checkClassesList classes classes

/-- numpy dtype promotion for two dtypes of this development: equal dtypes are
kept; bool is promoted by any other dtype; float64 dominates. -/
def dtypeJoin (a b : Dtype) : Dtype :=
  if a = b then a
  else match a, b with
    | Dtype.float64, _ => Dtype.float64
    | _, Dtype.float64 => Dtype.float64
    | _, _ => Dtype.int64

inductive ConcatErr
  | emptyList
  | misaligned
deriving DecidableEq, Repr

/-- the xr.concat of masks over the class dim, make_strat.py line 192: equally shaped
arrays are stacked on a new leading axis with the promoted dtype; an empty
list or arrays whose shapes disagree cannot be stacked into a clean
[class, y, x] array. -/
def concatClasses (masks : List Arr) : Except ConcatErr Arr :=
  match masks with
  | [] => Except.error ConcatErr.emptyList
  | m0 :: rest =>
    if (m0 :: rest).all (fun m => m.shape == m0.shape) then
      Except.ok
        { dtype := (m0 :: rest).foldl (fun d m => dtypeJoin d m.dtype) Dtype.bool,
          shape := (m0 :: rest).length :: m0.shape,
          data := fun idx =>
            match idx with
            | k :: restIdx => ((m0 :: rest).getD k m0).data restIdx
            | [] => false }
    else Except.error ConcatErr.misaligned

/-- the value entry of a rule as the Int it holds (the loop multiplies by it;
validation guarantees it is a positive Python int before the loop runs). -/
def infoValue (info : RuleInfo) : Int :=
  match info.value with
  | some (PyVal.vint n) => n
  | _ => 0

def infoDescription (info : RuleInfo) : String :=
  (info.description.getD PyVal.vother).strVal

def infoColor (info : RuleInfo) : String :=
  (info.color.getD PyVal.vother).strVal

/-- the data entry of a rule evaluated at pixel (i, j) of a 2D boolean mask. -/
def maskAt (info : RuleInfo) (i j : Nat) : Bool :=
  info.data.data [i, j]

/-- one iteration of the assignment loop (make_strat.py lines 198-204):
data = mask * value; mask2 = data.astype(bool) AND stratigraphy.isnull();
stratigraphy = stratigraphy.fillna(data.where(mask2)).  The NaN cells of the
float accumulator are `none`. -/
def addRule (strat : Nat → Nat → Option Int) (kv : String × RuleInfo) :
    Nat → Nat → Option Int :=
  fun i j =>
    let data : Int := (if maskAt kv.2 i j then 1 else 0) * infoValue kv.2
    let m : Bool := (data != 0) && (strat i j).isNone
    match strat i j with
    | some v => some v
    | none => if m then some data else none

/-- the all-NaN accumulator `land_cover.astype(float) * np.nan` (line 196). -/
def emptyStrat : Nat → Nat → Option Int := fun _ _ => none

/-- the full assignment pass: the `for key, info in strat_dict.items()` loop
threaded over the accumulator. -/
def stratAssignment (classes : StratDict) : Nat → Nat → Option Int :=
  classes.foldl addRule emptyStrat

/-- the int64 value numpy produces when `.astype(int)` hits a NaN cell. -/
def npNanAsInt : Int := -(2 ^ 63)

/-- the int cast of the float accumulator (line 212): a NaN cell becomes
the int64 sentinel. -/
def nanToInt (o : Option Int) : Int := o.getD npNanAsInt

/-- the returned classified raster with its legend attributes
(make_strat.py lines 210-223); description format placeholders are kept as
written since only order and values are at stake here. -/
structure Classified where
  shape : List Nat
  raster : Nat → Nat → Int
  class_values : List Int
  class_descriptions : List String
  class_colors : List String

def defaultClassified : Classified :=
  { shape := [], raster := fun _ _ => 0,
    class_values := [], class_descriptions := [], class_colors := [] }

inductive RunErr
  | importError (name : String)
  | concatFailed (e : ConcatErr)
  | maskCheck (e : MaskErr)
  | classCheck (e : ClsErr)
deriving DecidableEq, Repr

/-- the rule key named by a run error, if any: only the per-rule assertion
messages of check_stratigraphy_classes carry the offending key. -/
def runErrNamedRule : RunErr → Option String
  | RunErr.classCheck e => clsErrKey e
  | _ => none

/-- the engine body of make_stratigraphy_classes (make_strat.py lines
192-225), generalized over the ordered rule dictionary: stack the rule masks,
run check_stratigraphy_masks and check_stratigraphy_classes, then the
first-match NaN-fill assignment loop, then `.astype(int)` and the legend
attributes in rule order. -/
def stratRun (classes : StratDict) : Except RunErr Classified :=
  match concatClasses (classes.map (fun kv => kv.2.data)) with
  | Except.error e => Except.error (RunErr.concatFailed e)
  | Except.ok stack =>
    match check_stratigraphy_masks stack with
    | Except.error e => Except.error (RunErr.maskCheck e)
    | Except.ok _ =>
      match check_stratigraphy_classes classes with
      | Except.error e => Except.error (RunErr.classCheck e)
      | Except.ok _ =>
        Except.ok
          { shape := (classes.head?.map (fun kv => kv.2.data.shape)).getD [],
            raster := fun i j => nanToInt (stratAssignment classes i j),
            class_values := classes.map (fun kv => infoValue kv.2),
            class_descriptions := classes.map (fun kv => infoDescription kv.2),
            class_colors := classes.map (fun kv => infoColor kv.2) }

/-- top-level names bound in module cryogrid_data_fetcher.utils.xr_helpers
(imports and defs of xr_helpers.py lines 1-206). -/
def xr_helpers_module_names : List String :=
  ["fsspec", "xr", "pathlib", "_wraps", "logger", "is_safe_s3_path",
   "register_dask_progressbar_based_on_logger", "S3io", "coord_0d_to_attrs"]

/-- names bound in module cryogrid_data_fetcher.dem.derived: the xdem terrain
attributes are installed into the module namespace by the
`locals()[func] = ...` loop, so `slope` resolves. -/
def dem_derived_module_names : List String :=
  ["slope", "aspect", "hillshade", "curvature", "_xdem_xarray_wrapper"]

/-- a from-module-import-name statement: succeeds exactly when the namespace
binds the name, otherwise raises ImportError naming it. -/
def importFrom (module : List String) (name : String) : Except RunErr Unit :=
  if module.contains name then Except.ok ()
  else Except.error (RunErr.importError name)

/-- make_stratigraphy_classes as called (make_strat.py lines 116-225): the
function-level imports of lines 147-148 run first, before any rule mask is
built; only then is the engine body reached. -/
def make_stratigraphy_classes_run (classes : StratDict) : Except RunErr Classified :=
  match importFrom dem_derived_module_names "slope" with
  | Except.error e => Except.error e
  | Except.ok _ =>
    match importFrom xr_helpers_module_names "drop_non_index_coords" with
    | Except.error e => Except.error e
    | Except.ok _ => stratRun classes

def isOkB (e : Except RunErr Classified) : Bool :=
  match e with
  | Except.ok _ => true
  | Except.error _ => false

def runResult (classes : StratDict) : Classified :=
  match stratRun classes with
  | Except.ok r => r
  | Except.error _ => defaultClassified

def runRasterAt (classes : StratDict) (i j : Nat) : Int :=
  (runResult classes).raster i j

/-- number of pixels of a rows × cols grid covered by no rule mask. -/
def uncoveredCount (classes : StratDict) (rows cols : Nat) : Nat :=
  (pixels rows cols).countP
    (fun p => !(classes.any (fun kv => maskAt kv.2 p.1 p.2)))

/-- a rule claims a pixel in the assignment loop when its mask covers it and
`mask * value` is nonzero there. -/
def claimsAt (kv : String × RuleInfo) (i j : Nat) : Bool :=
  maskAt kv.2 i j && (infoValue kv.2 != 0)

/-- mask structural health of one rule relative to the reference shape
(the shape of the excluded entry): 2D, boolean, exactly that shape. -/
def maskWellFormedB (exShape : List Nat) (kv : String × RuleInfo) : Bool :=
  (kv.2.data.shape.length == 2) && (kv.2.data.dtype == Dtype.bool) &&
    (kv.2.data.shape == exShape)

def isPosIntVal : Option PyVal → Bool
  | some (PyVal.vint n) => decide (0 < n)
  | _ => false

/-- metadata health of one rule: string description, string color, positive
Python int value. -/
def metaWellFormedB (kv : String × RuleInfo) : Bool :=
  (kv.2.description.getD PyVal.vother).isStr &&
    (kv.2.color.getD PyVal.vother).isStr && isPosIntVal kv.2.value

/-- everything check_stratigraphy_classes verifies about one rule. -/
def ruleWellFormedB (exShape : List Nat) (kv : String × RuleInfo) : Bool :=
  maskWellFormedB exShape kv && metaWellFormedB kv

/-! Vectorization (utils/shp_helper.py). -/

/-- a 2D boolean grid, as a total function over pixel indices. -/
abbrev BoolGrid := Nat → Nat → Bool

/-- a 2D integer grid. -/
abbrev IntGrid := Nat → Nat → Int

/-- a classified integer raster with explicit extent (da.values). -/
structure IntRaster where
  rows : Nat
  cols : Nat
  data : Nat → Nat → Int

/-- row-major list of all cell values, `da.values` flattened. -/
def rasterValues (da : IntRaster) : List Int :=
  (pixels da.rows da.cols).map (fun p => da.data p.1 p.2)

/-- np.sort of np.unique of da.values: the sorted distinct cell values. -/
def sortedUnique (l : List Int) : List Int :=
  List.insertionSort (fun a b => a ≤ b) l.dedup

/-- number of distinct values occurring in the raster. -/
def distinctValueCount (da : IntRaster) : Nat :=
  (rasterValues da).dedup.length

inductive VecErr
  | tooManyClasses
  | namesLengthMismatch
deriving DecidableEq, Repr

/-- raster_int_to_vector (shp_helper.py lines 236-277).  The int-dtype assert
of line 255 is the IntRaster type; the per-class polygonization of
raster_bool_to_vector is geometric and is represented by the boolean class
mask it is traced from, paired with the class name.  Control flow follows the
source: sorted unique values, the >20 guard of lines 260-261, then the names
handling and the per-class loop. -/
def raster_int_to_vector (da : IntRaster) (names : Option (List String)) :
    Except VecErr (List (String × BoolGrid)) :=
  if 20 < (sortedUnique (rasterValues da)).length then
    Except.error VecErr.tooManyClasses
  else
    match names with
    | none =>
      Except.ok ((sortedUnique (rasterValues da)).map
        (fun m => (toString m, fun i j => da.data i j == m)))
    | some ns =>
      if ns.length = (sortedUnique (rasterValues da)).length then
        Except.ok (ns.zip ((sortedUnique (rasterValues da)).map
          (fun m => fun i j => da.data i j == m)))
      else Except.error VecErr.namesLengthMismatch

/-! polygons_to_raster_int (shp_helper.py lines 146-194): each dataframe row i
is rasterized to a boolean mask and multiplied by (i + 1); the per-polygon
integer slots are then reduced with an elementwise max over the stack. -/

/-- the per-polygon integer-coded slots: `polygon_to_raster_bool(...) * (i+1)`
(line 178). -/
def polygonSlots (masks : List BoolGrid) : List IntGrid :=
  masks.mapIdx (fun i m => fun r c => (if m r c then 1 else 0) * ((i : Int) + 1))

/-- the reduction max-over-polygons of lines 188-192: the elementwise
maximum over the slot stack (all slot values are ≥ 0 by construction, so the
0 base of the fold is neutral). -/
def mergeSlots (slots : List IntGrid) : IntGrid :=
  fun r c => (slots.map (fun s => s r c)).foldl max 0

/-- polygons_to_raster_int restricted to its merge core. -/
def polygons_to_raster_int (masks : List BoolGrid) : IntGrid :=
  mergeSlots (polygonSlots masks)

/-! Concrete inputs used by the claim theorems and witnesses. -/

/-- 2×2 boolean mask true only at pixel (0,0). -/
def arrTopLeft : Arr :=
  { dtype := Dtype.bool, shape := [2, 2], data := fun idx => idx == [0, 0] }

/-- 2×2 boolean mask true everywhere. -/
def arrAllTrue : Arr :=
  { dtype := Dtype.bool, shape := [2, 2], data := fun _ => true }

/-- 1×1 boolean mask true everywhere. -/
def arrAllTrue1x1 : Arr :=
  { dtype := Dtype.bool, shape := [1, 1], data := fun _ => true }

/-- 2×2 all-true mask carrying dtype float64. -/
def arrFloatAll : Arr :=
  { dtype := Dtype.float64, shape := [2, 2], data := fun _ => true }

def infoTopLeft : RuleInfo :=
  { data := arrTopLeft, description := some (PyVal.vstr "top-left only"),
    color := some (PyVal.vstr "#FA0000"), value := some (PyVal.vint 1) }

def infoTopLeft2 : RuleInfo :=
  { data := arrTopLeft, description := some (PyVal.vstr "top-left contested"),
    color := some (PyVal.vstr "#485b73"), value := some (PyVal.vint 2) }

def infoAllTrue1 : RuleInfo :=
  { data := arrAllTrue, description := some (PyVal.vstr "catch-all"),
    color := some (PyVal.vstr "#fcfcfc"), value := some (PyVal.vint 1) }

def infoAllTrue2 : RuleInfo :=
  { data := arrAllTrue, description := some (PyVal.vstr "catch-all two"),
    color := some (PyVal.vstr "#c4b18b"), value := some (PyVal.vint 2) }

def infoAllTrue1x1 : RuleInfo :=
  { data := arrAllTrue1x1, description := some (PyVal.vstr "everything"),
    color := some (PyVal.vstr "#FFFF4C"), value := some (PyVal.vint 1) }

def infoFloatAll : RuleInfo :=
  { data := arrFloatAll, description := some (PyVal.vstr "float mask"),
    color := some (PyVal.vstr "#469ec7"), value := some (PyVal.vint 2) }

/-- 2×2 grid, a single rule whose mask is true only at (0,0): the
incomplete-coverage scenario. -/
def singleRuleDict : StratDict := [("excluded", infoTopLeft)]

/-- the stacked [class, y, x] mask of singleRuleDict. -/
def singleRuleStack : Arr :=
  { dtype := Dtype.bool, shape := [1, 2, 2], data := fun idx => idx == [0, 0, 0] }

/-- 1×1 grid, one all-true rule: the raw masks exactly partition the grid. -/
def partitionDict : StratDict := [("excluded", infoAllTrue1x1)]

/-- 2×2 grid, an all-true rule followed by an overlapping rule: masks cover
the grid and overlap at (0,0). -/
def coverDict : StratDict := [("excluded", infoAllTrue1), ("extra", infoTopLeft2)]

/-- two rules sharing class code 1. -/
def dupCodeDict : StratDict := [("excluded", infoAllTrue1), ("dup", infoTopLeft)]

/-- a rule list whose second rule has a float64 (non-boolean) mask. -/
def floatMaskDict : StratDict := [("excluded", infoAllTrue1), ("badfloat", infoFloatAll)]

/-- overlapping rules for the priority-swap scenario. -/
def ruleA : String × RuleInfo := ("a", infoAllTrue1)

def ruleB : String × RuleInfo := ("b", infoAllTrue2)

def maskA : BoolGrid := fun i j => i == 0 && j == 0

def maskB : BoolGrid := fun _ _ => true

def constOne : IntGrid := fun _ _ => 1

def constTwo : IntGrid := fun _ _ => 2

/-! Helper lemmas about the validation functions. -/

theorem checkOneClass_ok_lookup (classes : StratDict) (kv : String × RuleInfo)
    (h : checkOneClass classes kv.1 kv.2 = Except.ok ()) :
    ∃ ex, lookupKey classes "excluded" = some ex := by
  unfold checkOneClass at h
  cases hlk : lookupKey classes "excluded" with
  | none => rw [hlk] at h; split_ifs at h <;> simp_all
  | some ex => exact ⟨ex, rfl⟩

theorem checkOneClass_ok_iff (classes : StratDict) (ex : RuleInfo)
    (hex : lookupKey classes "excluded" = some ex) (kv : String × RuleInfo) :
    checkOneClass classes kv.1 kv.2 = Except.ok () ↔
      ruleWellFormedB ex.data.shape kv = true := by
  obtain ⟨key, info⟩ := kv
  obtain ⟨arr, dsc, col, val⟩ := info
  simp only [checkOneClass, ruleWellFormedB, maskWellFormedB, metaWellFormedB, hex]
  by_cases h1 : arr.shape.length = 2
  case neg => simp [h1]
  by_cases h2 : arr.dtype = Dtype.bool
  case neg => simp [h1, h2]
  by_cases h3 : arr.shape = ex.data.shape
  case neg => simp [h1, h2, h3]
  have h4 : ex.data.shape.length = 2 := h3 ▸ h1
  rcases dsc with _ | d
  · simp [h1, h2, h3, h4, PyVal.isStr]
  rcases col with _ | c
  · simp [h1, h2, h3, h4, PyVal.isStr]
  rcases val with _ | v
  · simp [h1, h2, h3, h4, isPosIntVal]
  by_cases hd : d.isStr = true
  case neg => simp [h1, h2, h3, h4, hd]
  by_cases hc : c.isStr = true
  case neg => simp [h1, h2, h3, h4, hd, hc]
  rcases v with n | s | _
  · by_cases hn : n <= 0
    · simp [h1, h2, h3, h4, hd, hc, hn, isPosIntVal]
      all_goals omega
    · simp [h1, h2, h3, h4, hd, hc, hn, isPosIntVal]
      all_goals omega
  · simp [h1, h2, h3, h4, hd, hc, isPosIntVal]
  · simp [h1, h2, h3, h4, hd, hc, isPosIntVal]

theorem checkOneClass_error_key (classes : StratDict) (ex : RuleInfo)
    (hex : lookupKey classes "excluded" = some ex) (kv : String × RuleInfo)
    (e : ClsErr) (h : checkOneClass classes kv.1 kv.2 = Except.error e) :
    clsErrKey e = some kv.1 := by
  obtain ⟨key, info⟩ := kv
  obtain ⟨arr, dsc, col, val⟩ := info
  rcases dsc with _ | d <;> rcases col with _ | c <;> rcases val with _ | v <;>
    (try rcases v with n | s | _) <;>
    simp only [checkOneClass, hex] at h <;>
    split_ifs at h <;> (injection h with h2 <;> (subst h2; rfl))

theorem checkClassesList_ok_iff (classes : StratDict) (l : List (String × RuleInfo)) :
    checkClassesList classes l = Except.ok () ↔
      ∀ kv ∈ l, checkOneClass classes kv.1 kv.2 = Except.ok () := by
  induction l with
  | nil => simp [checkClassesList]
  | cons kv rest ih =>
    unfold checkClassesList
    cases h : checkOneClass classes kv.1 kv.2 with
    | error e => simp [h]
    | ok u => cases u; simp [h, ih]

theorem isPosIntVal_infoValue (info : RuleInfo) (h : isPosIntVal info.value = true) :
    0 < infoValue info := by
  unfold isPosIntVal at h
  unfold infoValue
  rcases hv : info.value with _ | v
  · rw [hv] at h; simp at h
  · rw [hv] at h; rcases v with n | s | _ <;> simp_all

theorem check_classes_values_pos (classes : StratDict)
    (h : check_stratigraphy_classes classes = Except.ok ()) :
    ∀ kv ∈ classes, 0 < infoValue kv.2 := by
  intro kv hkv
  have hone := (checkClassesList_ok_iff classes classes).mp h kv hkv
  obtain ⟨ex, hex⟩ := checkOneClass_ok_lookup classes kv hone
  have hwf := (checkOneClass_ok_iff classes ex hex kv).mp hone
  unfold ruleWellFormedB metaWellFormedB at hwf
  simp only [Bool.and_eq_true] at hwf
  exact isPosIntVal_infoValue kv.2 hwf.2.2

theorem checkClassesList_error_of_bad (classes : StratDict) (ex : RuleInfo)
    (hex : lookupKey classes "excluded" = some ex) :
    ∀ (l : List (String × RuleInfo)),
      (∃ kv ∈ l, ruleWellFormedB ex.data.shape kv = false) →
      ∃ k info e, (k, info) ∈ l ∧ ruleWellFormedB ex.data.shape (k, info) = false ∧
        checkClassesList classes l = Except.error e ∧ clsErrKey e = some k := by
  intro l
  induction l with
  | nil =>
    rintro ⟨kv, hmem, _⟩
    exact absurd hmem (List.not_mem_nil kv)
  | cons kv rest ih =>
    rintro ⟨kv', hmem, hbad⟩
    cases hone : checkOneClass classes kv.1 kv.2 with
    | error e =>
      refine ⟨kv.1, kv.2, e, List.mem_cons_self _ _, ?_, ?_, ?_⟩
      · cases hwf : ruleWellFormedB ex.data.shape (kv.1, kv.2) with
        | false => rfl
        | true =>
          have hok := (checkOneClass_ok_iff classes ex hex kv).mpr hwf
          rw [hok] at hone
          exact absurd hone (by simp)
      · simp [checkClassesList, hone]
      · exact checkOneClass_error_key classes ex hex kv e hone
    | ok u =>
      have hwfkv : ruleWellFormedB ex.data.shape kv = true := by
        cases u
        exact (checkOneClass_ok_iff classes ex hex kv).mp hone
      have hrest : kv' ∈ rest := by
        rcases List.mem_cons.mp hmem with hh | hh
        · subst hh; rw [hwfkv] at hbad; exact absurd hbad (by simp)
        · exact hh
      obtain ⟨k, info, e, hm, hb, hcl, hk⟩ := ih ⟨kv', hrest, hbad⟩
      refine ⟨k, info, e, List.mem_cons_of_mem kv hm, hb, ?_, hk⟩
      simpa [checkClassesList, hone] using hcl

theorem stratRun_ok_inv (classes : StratDict) (res : Classified)
    (h : stratRun classes = Except.ok res) :
    check_stratigraphy_classes classes = Except.ok () ∧
    res.class_values = classes.map (fun kv => infoValue kv.2) ∧
    ∀ i j, res.raster i j = nanToInt (stratAssignment classes i j) := by
  unfold stratRun at h
  split at h
  · exact absurd h (by simp)
  · split at h
    · exact absurd h (by simp)
    · split at h
      · exact absurd h (by simp)
      · rename_i u hchk
        injection h with h
        subst h
        refine ⟨?_, rfl, fun i j => rfl⟩
        cases u
        exact hchk

/-! Helper lemmas about the assignment loop. -/

theorem addRule_step (strat : Nat → Nat → Option Int) (kv : String × RuleInfo)
    (i j : Nat) (hpos : 0 < infoValue kv.2) :
    addRule strat kv i j =
      if maskAt kv.2 i j = true ∧ strat i j = none then some (infoValue kv.2)
      else strat i j := by
  unfold addRule
  cases hs : strat i j with
  | some v => simp [hs]
  | none =>
    cases hm : maskAt kv.2 i j with
    | false => simp [hs, hm]
    | true =>
      have hv : (infoValue kv.2 != 0) = true := by
        simp only [bne_iff_ne, ne_eq]
        omega
      simp [hs, hm, hv]

theorem foldl_addRule_at (l : List (String × RuleInfo))
    (strat : Nat → Nat → Option Int) (i j : Nat) :
    (l.foldl addRule strat) i j =
      match strat i j with
      | some v => some v
      | none => (l.find? (fun kv => claimsAt kv i j)).map (fun kv => infoValue kv.2) := by
  induction l generalizing strat with
  | nil => cases hs : strat i j <;> simp [hs]
  | cons kv rest ih =>
    rw [List.foldl_cons, ih]
    cases hs : strat i j with
    | some v =>
      have ha : addRule strat kv i j = some v := by simp [addRule, hs]
      simp [ha]
    | none =>
      cases hc : claimsAt kv i j with
      | true =>
        have hmv := hc
        unfold claimsAt at hmv
        rw [Bool.and_eq_true] at hmv
        have ha : addRule strat kv i j = some (infoValue kv.2) := by
          simp [addRule, hs, hmv.1, hmv.2]
        have hfind : List.find? (fun e => claimsAt e i j) (kv :: rest) = some kv := by
          simp only [List.find?, hc]
        simp [ha, hfind]
      | false =>
        have ha : addRule strat kv i j = none := by
          have hmv := hc
          unfold claimsAt at hmv
          rw [Bool.and_eq_false_iff] at hmv
          rcases hmv with hm | hv
          · simp [addRule, hs, hm]
          · have hv0 : infoValue kv.2 = 0 := by simpa using hv
            simp [addRule, hs, hv0]
        have hfind : List.find? (fun e => claimsAt e i j) (kv :: rest) =
            List.find? (fun e => claimsAt e i j) rest := by
          simp only [List.find?, hc]
        simp [ha, hfind]

theorem find?_append_of_none {α : Type} (l₁ l₂ : List α) (p : α → Bool)
    (h : ∀ e ∈ l₁, p e = false) : (l₁ ++ l₂).find? p = l₂.find? p := by
  induction l₁ with
  | nil => rfl
  | cons e l₁ ih =>
    rw [List.cons_append,
        List.find?_cons_of_neg _ (by simp [h e (List.mem_cons_self e l₁)]),
        ih (fun x hx => h x (List.mem_cons_of_mem e hx))]

theorem find?_pair_swap {α : Type} (pre post : List α) (a b : α) (p : α → Bool)
    (h : ¬(p a = true ∧ p b = true)) :
    (pre ++ a :: b :: post).find? p = (pre ++ b :: a :: post).find? p := by
  induction pre with
  | nil =>
    cases ha : p a <;> cases hb : p b
    · rw [List.nil_append, List.nil_append,
          List.find?_cons_of_neg _ (by simp [ha]), List.find?_cons_of_neg _ (by simp [hb]),
          List.find?_cons_of_neg _ (by simp [hb]), List.find?_cons_of_neg _ (by simp [ha])]
    · rw [List.nil_append, List.nil_append,
          List.find?_cons_of_neg _ (by simp [ha]), List.find?_cons_of_pos _ hb,
          List.find?_cons_of_pos _ hb]
    · rw [List.nil_append, List.nil_append,
          List.find?_cons_of_pos _ ha, List.find?_cons_of_neg _ (by simp [hb]),
          List.find?_cons_of_pos _ ha]
    · exact absurd ⟨ha, hb⟩ h
  | cons e pre ih =>
    cases he : p e
    · rw [List.cons_append, List.cons_append,
          List.find?_cons_of_neg _ (by simp [he]), List.find?_cons_of_neg _ (by simp [he]), ih]
    · rw [List.cons_append, List.cons_append,
          List.find?_cons_of_pos _ he, List.find?_cons_of_pos _ he]

theorem stratAssignment_eq_find (classes : StratDict) (i j : Nat) :
    stratAssignment classes i j =
      (classes.find? (fun kv => claimsAt kv i j)).map (fun kv => infoValue kv.2) := by
  unfold stratAssignment
  rw [foldl_addRule_at]
  rfl

theorem claimsAt_of_pos (kv : String × RuleInfo) (i j : Nat)
    (hm : maskAt kv.2 i j = true) (hp : 0 < infoValue kv.2) :
    claimsAt kv i j = true := by
  unfold claimsAt
  rw [hm]
  simp only [Bool.true_and, bne_iff_ne, ne_eq]
  omega

theorem stratAssignment_first_match (pre post : StratDict) (kv : String × RuleInfo)
    (i j : Nat) (hpos : ∀ e ∈ pre ++ kv :: post, 0 < infoValue e.2)
    (hmask : maskAt kv.2 i j = true)
    (hpre : ∀ e ∈ pre, maskAt e.2 i j = false) :
    stratAssignment (pre ++ kv :: post) i j = some (infoValue kv.2) := by
  have hkv : claimsAt kv i j = true :=
    claimsAt_of_pos kv i j hmask (hpos kv (by simp))
  have hfind : List.find? (fun e => claimsAt e i j) (kv :: post) = some kv := by
    simp only [List.find?, hkv]
  rw [stratAssignment_eq_find,
      find?_append_of_none pre (kv :: post) _
        (fun e he => by
          show claimsAt e i j = false
          unfold claimsAt
          rw [hpre e he]
          rfl),
      hfind]
  rfl

theorem stratAssignment_swap (pre post : StratDict) (a b : String × RuleInfo) (i j : Nat)
    (hne : stratAssignment (pre ++ a :: b :: post) i j ≠
      stratAssignment (pre ++ b :: a :: post) i j) :
    maskAt a.2 i j = true ∧ maskAt b.2 i j = true := by
  by_contra hcon
  apply hne
  rw [stratAssignment_eq_find, stratAssignment_eq_find,
      find?_pair_swap pre post a b _ ?_]
  intro hcl
  apply hcon
  exact ⟨(Bool.and_eq_true _ _ |>.mp hcl.1).1, (Bool.and_eq_true _ _ |>.mp hcl.2).1⟩

/-! Helper lemmas about the elementwise max reduction. -/

theorem foldl_max_perm (l₁ l₂ : List Int) (h : l₁.Perm l₂) :
    ∀ a : Int, l₁.foldl max a = l₂.foldl max a := by
  induction h with
  | nil => intro a; rfl
  | cons x h ih =>
    intro a
    simp only [List.foldl_cons]
    exact ih _
  | swap x y l =>
    intro a
    simp only [List.foldl_cons]
    rw [sup_right_comm]
  | trans h1 h2 ih1 ih2 =>
    intro a
    rw [ih1 a, ih2 a]

theorem foldl_max_init_le (l : List Int) (a : Int) : a ≤ l.foldl max a := by
  induction l generalizing a with
  | nil => exact le_refl a
  | cons x l ih => exact le_trans (le_max_left a x) (ih _)

theorem foldl_max_nonneg_split (l : List Int) :
    ∀ a : Int, 0 ≤ a → (∀ x ∈ l, 0 ≤ x) → l.foldl max a = max a (l.foldl max 0) := by
  induction l with
  | nil =>
    intro a ha _
    simp [max_eq_left ha]
  | cons x l ih =>
    intro a ha hl
    have hx : 0 ≤ x := hl x (List.mem_cons_self x l)
    have hl2 : ∀ y ∈ l, 0 ≤ y := fun y hy => hl y (List.mem_cons_of_mem x hy)
    rw [List.foldl_cons, List.foldl_cons, max_eq_right hx,
        ih (max a x) (le_trans ha (le_max_left a x)) hl2, ih x hx hl2, max_assoc]

theorem mergeSlots_perm (l₁ l₂ : List IntGrid) (h : l₁.Perm l₂) (r c : Nat) :
    mergeSlots l₁ r c = mergeSlots l₂ r c := by
  unfold mergeSlots
  exact foldl_max_perm _ _ (h.map (fun s => s r c)) 0

theorem mergeSlots_append (s t : List IntGrid)
    (h : ∀ g ∈ s ++ t, ∀ r c, 0 ≤ g r c) (r c : Nat) :
    mergeSlots (s ++ t) r c = max (mergeSlots s r c) (mergeSlots t r c) := by
  unfold mergeSlots
  rw [List.map_append, List.foldl_append]
  have hs0 : (0 : Int) ≤ (s.map (fun g => g r c)).foldl max 0 := foldl_max_init_le _ 0
  have ht : ∀ x ∈ t.map (fun g => g r c), (0 : Int) ≤ x := by
    intro x hx
    obtain ⟨g, hg, rfl⟩ := List.mem_map.mp hx
    exact h g (List.mem_append_right s hg) r c
  exact foldl_max_nonneg_split _ _ hs0 ht

/-! Claim theorems. -/

/-- C1: the incomplete-classification check is inverted in the code.  On the
2×2 grid with a single rule whose mask is true only at pixel (0,0), the
stacked mask has 3 truly unclassified pixels, yet check_stratigraphy_masks
passes (its asserts require the miscounted quantities to be NONZERO), the run
returns a raster instead of raising, and the 3 uncovered pixels hold the
NaN-cast int64 sentinel. -/
theorem c1_incomplete_classification_not_raised :
    check_stratigraphy_masks singleRuleStack = Except.ok () ∧
    unclassifiedPixelCount singleRuleStack = 3 ∧
    isOkB (stratRun singleRuleDict) = true ∧
    runRasterAt singleRuleDict 0 0 = 1 ∧
    runRasterAt singleRuleDict 0 1 = npNanAsInt :=
  ⟨rfl, by decide, rfl, by decide, by decide⟩

/-- C2 counterexample: a rule set whose masks cover the whole 1×1 grid (in
fact exactly partition it) on which the run raises the inverted overlap
assert instead of returning a classified raster. -/
theorem c2_counterexample :
    uncoveredCount partitionDict 1 1 = 0 ∧
    stratRun partitionDict = Except.error (RunErr.maskCheck (MaskErr.overlapAssert 0)) :=
  ⟨rfl, rfl⟩

/-- C2 (amended): for every input whose rule masks jointly cover the grid AND
on which the engine returns a raster, every pixel holds exactly one legend
code: the per-code reconstructed masks partition the grid. -/
theorem c2_cover_partition (classes : StratDict) (res : Classified) (rows cols : Nat)
    (hrun : stratRun classes = Except.ok res)
    (hcover : ∀ i j, i < rows → j < cols → ∃ kv ∈ classes, maskAt kv.2 i j = true) :
    ∀ i j, i < rows → j < cols →
      ∃! c : Int, c ∈ res.class_values ∧ res.raster i j = c := by
  obtain ⟨hchk, hvals, hrast⟩ := stratRun_ok_inv classes res hrun
  intro i j hi hj
  obtain ⟨kv, hkv, hm⟩ := hcover i j hi hj
  have hpos := check_classes_values_pos classes hchk
  have hclaims : claimsAt kv i j = true := claimsAt_of_pos kv i j hm (hpos kv hkv)
  have hsome : (classes.find? (fun e => claimsAt e i j)).isSome := by
    rw [List.find?_isSome]
    exact ⟨kv, hkv, hclaims⟩
  obtain ⟨kv0, hkv0⟩ := Option.isSome_iff_exists.mp hsome
  have hmem0 : kv0 ∈ classes := List.mem_of_find?_eq_some hkv0
  have hassign : stratAssignment classes i j = some (infoValue kv0.2) := by
    rw [stratAssignment_eq_find, hkv0]
    rfl
  have hr : res.raster i j = infoValue kv0.2 := by
    rw [hrast i j, hassign]
    rfl
  refine ⟨infoValue kv0.2, ⟨?_, hr⟩, ?_⟩
  · rw [hvals]
    exact List.mem_map_of_mem _ hmem0
  · intro c hc
    exact hc.2.symm.trans hr

/-- C2 witness: on the 2×2 covering rule set with an overlap at (0,0), the
run returns and pixel (0,1) holds exactly one legend code. -/
theorem c2_witness :
    ∃! c : Int, c ∈ (runResult coverDict).class_values ∧
      (runResult coverDict).raster 0 1 = c :=
  c2_cover_partition coverDict (runResult coverDict) 2 2 rfl
    (fun i j _ _ => ⟨("excluded", infoAllTrue1), List.mem_cons_self _ _, rfl⟩)
    0 1 (by decide) (by decide)

/-- C3: the assignment pass is first-match-wins in rule-list order: a pixel
covered by a rule and by no earlier rule receives the code of that rule; one
step contributes exactly (mask AND NOT already-classified) and never raises;
and swapping two adjacent rules can change the output only at pixels covered
by both their masks. -/
theorem c3_first_match_wins :
    (∀ (pre post : StratDict) (kv : String × RuleInfo) (i j : Nat),
        (∀ e ∈ pre ++ kv :: post, 0 < infoValue e.2) →
        maskAt kv.2 i j = true →
        (∀ e ∈ pre, maskAt e.2 i j = false) →
        stratAssignment (pre ++ kv :: post) i j = some (infoValue kv.2))
    ∧ (∀ (strat : Nat → Nat → Option Int) (kv : String × RuleInfo) (i j : Nat),
        0 < infoValue kv.2 →
        addRule strat kv i j =
          if maskAt kv.2 i j = true ∧ strat i j = none then some (infoValue kv.2)
          else strat i j)
    ∧ (∀ (pre post : StratDict) (a b : String × RuleInfo) (i j : Nat),
        stratAssignment (pre ++ a :: b :: post) i j ≠
          stratAssignment (pre ++ b :: a :: post) i j →
        maskAt a.2 i j = true ∧ maskAt b.2 i j = true) :=
  ⟨fun pre post kv i j h1 h2 h3 => stratAssignment_first_match pre post kv i j h1 h2 h3,
   fun strat kv i j h => addRule_step strat kv i j h,
   fun pre post a b i j h => stratAssignment_swap pre post a b i j h⟩

/-- C3 witness: two overlapping all-true rules; the first one wins at (0,0),
the loop step claims the pixel, and both masks cover the contested pixel. -/
theorem c3_witness :
    stratAssignment [ruleA, ruleB] 0 0 = some 1 ∧
    addRule emptyStrat ruleA 0 0 = some 1 ∧
    (maskAt ruleA.2 0 0 = true ∧ maskAt ruleB.2 0 0 = true) := by
  refine ⟨?_, ?_, ?_⟩
  · exact c3_first_match_wins.1 [] [ruleB] ruleA 0 0 (by decide) rfl (by simp)
  · exact (c3_first_match_wins.2.1 emptyStrat ruleA 0 0 (by decide)).trans rfl
  · exact c3_first_match_wins.2.2 [] [] ruleA ruleB 0 0 (by decide)

/-- C4: on the incomplete-coverage input the run returns a raster whose pixel
(0,1) holds the NaN-cast int64 sentinel, a value that is not among the legend
codes; so the codes occurring in a returned raster are NOT always a subset of
the legend (the inverted completeness check lets the NaN cells through). -/
theorem c4_raster_code_outside_legend :
    isOkB (stratRun singleRuleDict) = true ∧
    (runResult singleRuleDict).class_values = [1] ∧
    runRasterAt singleRuleDict 0 1 = npNanAsInt ∧
    npNanAsInt ∉ (runResult singleRuleDict).class_values :=
  ⟨rfl, rfl, by decide, by decide⟩

/-- C5 counterexample: two rules share class code 1, yet
check_stratigraphy_classes passes and the whole run returns a raster:
uniqueness of class codes is not validated. -/
theorem c5_counterexample :
    dupCodeDict.map (fun kv => infoValue kv.2) = [1, 1] ∧
    check_stratigraphy_classes dupCodeDict = Except.ok () ∧
    isOkB (stratRun dupCodeDict) = true :=
  ⟨rfl, rfl, rfl⟩

/-- C5 (amended): check_stratigraphy_classes accepts a rule list exactly when
every rule has a 2D boolean mask of the reference shape, a string
description, a string color, and a positive int code — uniqueness of codes
is NOT part of the validation; and a run can return a raster only if this
validation passed (it runs before the assignment loop). -/
theorem c5_validation_no_uniqueness (classes : StratDict) (ex : RuleInfo)
    (hex : lookupKey classes "excluded" = some ex) :
    (check_stratigraphy_classes classes = Except.ok () ↔
      ∀ kv ∈ classes, ruleWellFormedB ex.data.shape kv = true)
    ∧ (∀ e, check_stratigraphy_classes classes = Except.error e →
        ∀ res, stratRun classes ≠ Except.ok res) := by
  constructor
  · unfold check_stratigraphy_classes
    rw [checkClassesList_ok_iff]
    constructor
    · intro h kv hkv
      exact (checkOneClass_ok_iff classes ex hex kv).mp (h kv hkv)
    · intro h kv hkv
      exact (checkOneClass_ok_iff classes ex hex kv).mpr (h kv hkv)
  · intro e he res hok
    have hchk := (stratRun_ok_inv classes res hok).1
    rw [hchk] at he
    exact absurd he (by simp)

/-- C5 witness: the duplicate-code rule list satisfies the characterization,
so validation accepts it. -/
theorem c5_witness : check_stratigraphy_classes dupCodeDict = Except.ok () :=
  (c5_validation_no_uniqueness dupCodeDict infoAllTrue1 rfl).1.mpr (by decide)

/-- C6 counterexample: with a rule whose mask has dtype float64, the run does
fail, but with the boolean-dtype assert of check_stratigraphy_masks on the
promoted stacked array, an error that names no rule — not with a
shape-mismatch error naming the offending rule. -/
theorem c6_counterexample :
    stratRun floatMaskDict = Except.error (RunErr.maskCheck MaskErr.notBool) ∧
    runErrNamedRule (RunErr.maskCheck MaskErr.notBool) = none ∧
    maskWellFormedB infoAllTrue1.data.shape ("badfloat", infoFloatAll) = false :=
  ⟨rfl, rfl, rfl⟩

/-- C6 (amended): a rule list containing a non-2D, non-boolean, or
shape-mismatched mask never yields a classified raster (the run fails before
any output), and the per-rule check check_stratigraphy_classes rejects such a
list with an assertion error that names an offending rule. -/
theorem c6_bad_mask_run_fails :
    (∀ (classes : StratDict) (ex : RuleInfo),
        lookupKey classes "excluded" = some ex →
        (∃ kv ∈ classes, maskWellFormedB ex.data.shape kv = false) →
        ∀ res, stratRun classes ≠ Except.ok res)
    ∧ (∀ (classes : StratDict) (ex : RuleInfo),
        lookupKey classes "excluded" = some ex →
        (∃ kv ∈ classes, maskWellFormedB ex.data.shape kv = false) →
        ∃ k info e, (k, info) ∈ classes ∧
          ruleWellFormedB ex.data.shape (k, info) = false ∧
          check_stratigraphy_classes classes = Except.error e ∧
          clsErrKey e = some k) := by
  constructor
  · rintro classes ex hex ⟨kv, hkv, hbad⟩ res hok
    have hchk := (stratRun_ok_inv classes res hok).1
    have hall := (checkClassesList_ok_iff classes classes).mp hchk
    have hwf := (checkOneClass_ok_iff classes ex hex kv).mp (hall kv hkv)
    unfold ruleWellFormedB at hwf
    rw [Bool.and_eq_true] at hwf
    rw [hwf.1] at hbad
    exact absurd hbad (by simp)
  · rintro classes ex hex ⟨kv, hkv, hbad⟩
    have hrb : ruleWellFormedB ex.data.shape kv = false := by
      unfold ruleWellFormedB
      rw [hbad]
      rfl
    exact checkClassesList_error_of_bad classes ex hex classes ⟨kv, hkv, hrb⟩

/-- C6 witness: the float-mask rule list never yields a raster, and the
per-rule validation names an offending rule. -/
theorem c6_witness :
    (stratRun floatMaskDict ≠ Except.ok defaultClassified) ∧
    ∃ k info e, (k, info) ∈ floatMaskDict ∧
      ruleWellFormedB infoAllTrue1.data.shape (k, info) = false ∧
      check_stratigraphy_classes floatMaskDict = Except.error e ∧
      clsErrKey e = some k :=
  ⟨c6_bad_mask_run_fails.1 floatMaskDict infoAllTrue1 rfl
      ⟨("badfloat", infoFloatAll), by simp [floatMaskDict], rfl⟩ defaultClassified,
   c6_bad_mask_run_fails.2 floatMaskDict infoAllTrue1 rfl
      ⟨("badfloat", infoFloatAll), by simp [floatMaskDict], rfl⟩⟩

/-- C7: vectorization of a classified integer raster fails with the
too-many-classes error exactly when the raster holds more than 20 distinct
values (and the embedding of raster_int_to_vector is a pure function of the
raster, which the source only reads). -/
theorem c7_too_many_classes_iff (da : IntRaster) (names : Option (List String)) :
    raster_int_to_vector da names = Except.error VecErr.tooManyClasses ↔
      20 < distinctValueCount da := by
  have hlen : (sortedUnique (rasterValues da)).length = distinctValueCount da :=
    (List.perm_insertionSort _ _).length_eq
  unfold raster_int_to_vector
  by_cases h : 20 < (sortedUnique (rasterValues da)).length
  · rw [if_pos h]
    exact iff_of_true rfl (hlen ▸ h)
  · rw [if_neg h]
    rw [hlen] at h
    cases names with
    | none => simp [h]
    | some ns =>
      by_cases hn : ns.length = (sortedUnique (rasterValues da)).length <;>
        simp [h, hn]

/-- C9: the per-polygon slot reduction of polygons_to_raster_int is an
elementwise max, which is order-independent (any permutation of the slots
merges to the same raster) and splits associatively over concatenation of
nonnegative slot lists, so worker completion order never affects the result. -/
theorem c9_merge_order_independent :
    (∀ (masks : List BoolGrid) (slots : List IntGrid),
        slots.Perm (polygonSlots masks) →
        ∀ r c, mergeSlots slots r c = polygons_to_raster_int masks r c)
    ∧ (∀ (s t : List IntGrid), (∀ g ∈ s ++ t, ∀ r c, 0 ≤ g r c) →
        ∀ r c, mergeSlots (s ++ t) r c = max (mergeSlots s r c) (mergeSlots t r c)) :=
  ⟨fun _ slots h r c => mergeSlots_perm slots _ h r c,
   fun s t h r c => mergeSlots_append s t h r c⟩

/-- C9 witness: reversing the two slots of a concrete two-polygon input
leaves the merged raster unchanged, and merging a split pair of constant
slots equals the max of the two merges. -/
theorem c9_witness :
    mergeSlots (polygonSlots [maskA, maskB]).reverse 0 0 =
      polygons_to_raster_int [maskA, maskB] 0 0 ∧
    mergeSlots ([constOne] ++ [constTwo]) 0 0 =
      max (mergeSlots [constOne] 0 0) (mergeSlots [constTwo] 0 0) :=
  ⟨c9_merge_order_independent.1 [maskA, maskB] (polygonSlots [maskA, maskB]).reverse
      (List.reverse_perm (polygonSlots [maskA, maskB])) 0 0,
   c9_merge_order_independent.2 [constOne] [constTwo]
      (by
        intro g hg r c
        rcases List.mem_cons.mp hg with h | h
        · subst h; exact zero_le_one
        · rcases List.mem_cons.mp h with h2 | h2
          · subst h2; exact zero_le_two
          · exact absurd h2 (List.not_mem_nil g)) 0 0⟩

/-- C10: every call of make_stratigraphy_classes fails with ImportError on
`from ..utils.xr_helpers import drop_non_index_coords` (the module binds no
such name), before any rule mask is evaluated. -/
theorem c10_import_error (classes : StratDict) :
    make_stratigraphy_classes_run classes =
      Except.error (RunErr.importError "drop_non_index_coords") := rfl
